import Mathlib

/-!
Verification of the SceneScape hello-world people counter
(src/hello_world.py), centred on PeopleCounter.handle_mqtt_message
and the polling loop in PeopleCounter.run.

Modelling decisions, matched line by line against the Python source:

* Python dicts with string keys are modelled as insertion-ordered
  association lists (List (String × α)); setKey replaces in place and
  appends new keys at the end, exactly like dict assignment, and the
  defaultdict read-then-conditional-write on max_people_counts is shown
  below to equal a single setKey with Nat.max.
* A decoded MQTT payload is an Event with optional fields, mirroring
  data.get with defaults.  The objects value may be a proper list,
  a non-iterable value (iteration raises TypeError), and each entry may
  be a non-mapping (obj.get raises AttributeError); either exception is
  caught by the try/except of handle_mqtt_message after the scene-name
  cache was already written, which countObjects models by returning none.
* time.time / datetime.now are passed in as a Nat timestamp.
* Printing has no effect on the counter state, so show_live_summary and
  print_status are not part of the state transition; the detailed-report
  cadence of PeopleCounter.run is modelled as an interleaving of message
  deliveries and 5-second poll iterations (runLoop below).
-/

/-- Lookup in an insertion-ordered association list, as Python dict
access d.get(k). -/
def getOpt {α : Type} : List (String × α) → String → Option α
  | [], _ => none
  | (k, v) :: rest, key => if k = key then some v else getOpt rest key

/-- Lookup with a default, as Python d.get(k, d0) or defaultdict read. -/
def getD {α : Type} (m : List (String × α)) (k : String) (d : α) : α :=
  (getOpt m k).getD d

/-- Assignment d[k] = v on a Python dict: replaces in place when the key
exists, otherwise appends at the end (insertion order). -/
def setKey {α : Type} : List (String × α) → String → α → List (String × α)
  | [], key, v => [(key, v)]
  | (k, w) :: rest, key, v =>
      if k = key then (key, v) :: rest else (k, w) :: setKey rest key v

/-- Sum of the values of a dict, as sum(d.values()). -/
def sumValues (m : List (String × Nat)) : Nat :=
  (m.map Prod.snd).sum

/-- One entry of an event's objects list: either a mapping with optional
type and category fields, or a non-mapping value on which obj.get would
raise AttributeError. -/
inductive TrackedObj where
  | mapping (ty category : Option String)
  | nonMapping
deriving DecidableEq, Repr

/-- The value found under the objects key: a list of entries, or a
non-iterable value on which the for loop would raise TypeError. -/
inductive ObjectsVal where
  | items (objs : List TrackedObj)
  | notIterable
deriving DecidableEq, Repr

/-- A decoded MQTT payload as handle_mqtt_message reads it: data.get of
the id, name and objects keys. -/
structure Event where
  id : Option String
  name : Option String
  objects : Option ObjectsVal
deriving DecidableEq, Repr

/-- The person filter of hello_world.py line 312:
obj.get of type equals person, or obj.get of category equals person. -/
def isPersonB (ty category : Option String) : Bool :=
  ty == some "person" || category == some "person"

/-- The counting loop of hello_world.py lines 308-313, with the running
local people_in_scene as accumulator; none models the exception raised
on a non-mapping entry (caught by the surrounding try/except, discarding
the partial count). -/
def countLoop : List TrackedObj → Nat → Option Nat
  | [], acc => some acc
  | TrackedObj.mapping ty category :: rest, acc =>
      countLoop rest (if isPersonB ty category then acc + 1 else acc)
  | TrackedObj.nonMapping :: _, _ => none

/-- Counting the people in the objects value; none models the TypeError
raised when the value is not iterable, or the AttributeError on a
non-mapping entry. -/
def countObjects : ObjectsVal → Option Nat
  | ObjectsVal.items objs => countLoop objs 0
  | ObjectsVal.notIterable => none

/-- The complete mutable state of a PeopleCounter that
handle_mqtt_message touches (hello_world.py lines 65-73).  The scenes
registry maps scene id to the name fetched from the REST API; the other
fields are exactly the counters of __init__. -/
structure PeopleCounter where
  scenes : List (String × String)
  people_counts : List (String × Nat)
  max_people_counts : List (String × Nat)
  max_total_people : Nat
  scene_names : List (String × String)
  total_people : Nat
  last_update : Option Nat
  message_count : Nat
deriving DecidableEq, Repr

/-- The freshly constructed PeopleCounter of __init__: empty dicts and
zero counters. -/
def initState : PeopleCounter :=
  { scenes := []
    people_counts := []
    max_people_counts := []
    max_total_people := 0
    scene_names := []
    total_people := 0
    last_update := none
    message_count := 0 }

/-- Display-name resolution of hello_world.py line 303:
data.get of name, with default the registry entry's name, with default
the placeholder built from the first 8 characters of the id. -/
def resolveName (s : PeopleCounter) (data : Event) (sid : String) : String :=
  match data.name with
  | some n => n
  | none =>
      match getOpt s.scenes sid with
      | some n => n
      | none => "Scene-" ++ sid.take 8

/-- The state mutations of hello_world.py lines 302-326 once the scene
id has been validated: first the scene-name cache is written (line 304),
then, when counting succeeded with count c, the per-scene count is
replaced, the total recomputed as the sum of all per-scene counts, the
per-scene peak and total peak raised via max, and last_update and
message_count advanced.  A none count models the exception path: the
try/except catches it after the name cache was written, leaving every
other field untouched.  The read of the defaultdict
max_people_counts at line 320 followed by the conditional write at line
321 equals a single write of Nat.max (the read inserts the key with 0
when absent, so the key ends up present in both cases). -/
def applyCount (s : PeopleCounter) (sid sn : String) (oc : Option Nat)
    (now : Nat) : PeopleCounter :=
  let s1 : PeopleCounter := { s with scene_names := setKey s.scene_names sid sn }
  match oc with
  | none => s1
  | some c =>
      let pc := setKey s1.people_counts sid c
      let tot := sumValues pc
      { s1 with
          people_counts := pc
          total_people := tot
          max_people_counts :=
            setKey s1.max_people_counts sid
              (Nat.max (getD s1.max_people_counts sid 0) c)
          max_total_people := Nat.max s1.max_total_people tot
          last_update := some now
          message_count := s1.message_count + 1 }

/-- PeopleCounter.handle_mqtt_message (hello_world.py lines 288-339).
A missing id key, or an empty id string (both falsy in Python), is
rejected at line 298 with an early return before any state was touched;
the warning is only logged, so the call returns normally to the caller
either way, which the embedding reflects by being a total function. -/
def handle_mqtt_message (s : PeopleCounter) (data : Event) (now : Nat) :
    PeopleCounter :=
  match data.id with
  | none => s
  | some sid =>
      if sid = "" then s
      else
        applyCount s sid (resolveName s data sid)
          (countObjects (data.objects.getD (ObjectsVal.items []))) now

/-- Processing a sequence of timestamped events through
handle_mqtt_message. -/
def processEvents (s : PeopleCounter) : List (Event × Nat) → PeopleCounter
  | [] => s
  | (e, t) :: rest => processEvents (handle_mqtt_message s e t) rest

/-- One step of the interleaved execution of PeopleCounter.run: either
the MQTT thread delivers a message (a handle_mqtt_message call), or the
main loop wakes from its 5-second sleep and runs one iteration of the
while body (hello_world.py lines 420-427). -/
inductive RunAction where
  | msg (e : Event) (t : Nat)
  | poll
deriving DecidableEq, Repr

/-- The detailed-report condition of hello_world.py line 424:
message_count greater than zero and message_count divisible by 150. -/
def pollFires (s : PeopleCounter) : Bool :=
  decide (0 < s.message_count) && decide (s.message_count % 150 = 0)

/-- Running an interleaving of message deliveries and poll iterations,
returning the final state and the number of detailed reports
(print_status calls) the main loop emitted.  print_status only reads
the state, so a poll leaves the state unchanged. -/
def runLoop (s : PeopleCounter) : List RunAction → PeopleCounter × Nat
  | [] => (s, 0)
  | RunAction.msg e t :: rest => runLoop (handle_mqtt_message s e t) rest
  | RunAction.poll :: rest =>
      let r := runLoop s rest
      (r.1, (if pollFires s then 1 else 0) + r.2)

/-- The message counts the main loop observes at each of its poll
iterations, in order. -/
def pollCounts (s : PeopleCounter) : List RunAction → List Nat
  | [] => []
  | RunAction.msg e t :: rest => pollCounts (handle_mqtt_message s e t) rest
  | RunAction.poll :: rest => s.message_count :: pollCounts s rest

/-! Association-list lemmas. -/

theorem getOpt_setKey_self {α : Type} (m : List (String × α)) (k : String)
    (v : α) : getOpt (setKey m k v) k = some v := by
  induction m with
  | nil => simp [setKey, getOpt]
  | cons p rest ih =>
      obtain ⟨k2, w⟩ := p
      by_cases h : k2 = k
      · simp [setKey, h, getOpt]
      · simp [setKey, h, getOpt, ih]

theorem getOpt_setKey_ne {α : Type} (m : List (String × α)) (k k' : String)
    (v : α) (h : ¬ k' = k) : getOpt (setKey m k v) k' = getOpt m k' := by
  induction m with
  | nil =>
      simp only [setKey, getOpt]
      rw [if_neg (fun hh => h hh.symm)]
  | cons p rest ih =>
      obtain ⟨k2, w⟩ := p
      by_cases h2 : k2 = k
      · subst h2
        simp only [setKey, if_pos rfl, getOpt]
        rw [if_neg (fun hh => h hh.symm), if_neg (fun hh => h hh.symm)]
      · simp only [setKey, if_neg h2, getOpt, ih]

theorem getD_setKey_self {α : Type} (m : List (String × α)) (k : String)
    (v d : α) : getD (setKey m k v) k d = v := by
  unfold getD
  rw [getOpt_setKey_self]
  rfl

theorem getD_setKey_ne {α : Type} (m : List (String × α)) (k k' : String)
    (v d : α) (h : ¬ k' = k) : getD (setKey m k v) k' d = getD m k' d := by
  unfold getD
  rw [getOpt_setKey_ne m k k' v h]

theorem setKey_setKey {α : Type} (m : List (String × α)) (k : String)
    (v w : α) : setKey (setKey m k v) k w = setKey m k w := by
  induction m with
  | nil => simp [setKey]
  | cons p rest ih =>
      obtain ⟨k2, u⟩ := p
      by_cases h : k2 = k <;> simp [setKey, h, ih]

/-! Unfolding lemmas for applyCount and handle_mqtt_message. -/

theorem applyCount_none (s : PeopleCounter) (sid sn : String) (now : Nat) :
    applyCount s sid sn none now =
      { s with scene_names := setKey s.scene_names sid sn } := rfl

theorem applyCount_some (s : PeopleCounter) (sid sn : String) (c now : Nat) :
    applyCount s sid sn (some c) now =
      { scenes := s.scenes
        people_counts := setKey s.people_counts sid c
        max_people_counts :=
          setKey s.max_people_counts sid
            (Nat.max (getD s.max_people_counts sid 0) c)
        max_total_people :=
          Nat.max s.max_total_people (sumValues (setKey s.people_counts sid c))
        scene_names := setKey s.scene_names sid sn
        total_people := sumValues (setKey s.people_counts sid c)
        last_update := some now
        message_count := s.message_count + 1 } := rfl

theorem handle_id_none (s : PeopleCounter) (e : Event) (t : Nat)
    (h : e.id = none) : handle_mqtt_message s e t = s := by
  unfold handle_mqtt_message
  rw [h]

theorem handle_id_empty (s : PeopleCounter) (e : Event) (t : Nat)
    (h : e.id = some "") : handle_mqtt_message s e t = s := by
  unfold handle_mqtt_message
  rw [h]
  simp

theorem handle_id_valid (s : PeopleCounter) (e : Event) (t : Nat)
    (sid : String) (h : e.id = some sid) (h2 : ¬ sid = "") :
    handle_mqtt_message s e t =
      applyCount s sid (resolveName s e sid)
        (countObjects (e.objects.getD (ObjectsVal.items []))) t := by
  unfold handle_mqtt_message
  rw [h]
  simp [h2]

theorem applyCount_scenes (s : PeopleCounter) (sid sn : String)
    (oc : Option Nat) (now : Nat) :
    (applyCount s sid sn oc now).scenes = s.scenes := by
  cases oc <;> rfl

theorem handle_scenes (s : PeopleCounter) (e : Event) (t : Nat) :
    (handle_mqtt_message s e t).scenes = s.scenes := by
  match h : e.id with
  | none => rw [handle_id_none s e t h]
  | some sid =>
      by_cases h2 : sid = ""
      · subst h2
        rw [handle_id_empty s e t h]
      · rw [handle_id_valid s e t sid h h2]
        exact applyCount_scenes ..

theorem resolveName_congr (s s2 : PeopleCounter) (e : Event) (sid : String)
    (h : s.scenes = s2.scenes) : resolveName s e sid = resolveName s2 e sid := by
  unfold resolveName
  rw [h]

/-! Invariant preservation lemmas for one handle_mqtt_message step. -/

theorem handle_total_inv (s : PeopleCounter) (e : Event) (t : Nat)
    (h : s.total_people = sumValues s.people_counts) :
    (handle_mqtt_message s e t).total_people =
      sumValues (handle_mqtt_message s e t).people_counts := by
  match hid : e.id with
  | none =>
      rw [handle_id_none s e t hid]
      exact h
  | some sid =>
      by_cases h2 : sid = ""
      · subst h2
        rw [handle_id_empty s e t hid]
        exact h
      · rw [handle_id_valid s e t sid hid h2]
        cases countObjects (e.objects.getD (ObjectsVal.items [])) with
        | none => exact h
        | some c => rfl

theorem handle_peak_ge (s : PeopleCounter) (e : Event) (t : Nat)
    (h : ∀ k, getD s.people_counts k 0 ≤ getD s.max_people_counts k 0) :
    ∀ k, getD (handle_mqtt_message s e t).people_counts k 0 ≤
      getD (handle_mqtt_message s e t).max_people_counts k 0 := by
  match hid : e.id with
  | none =>
      rw [handle_id_none s e t hid]
      exact h
  | some sid =>
      by_cases h2 : sid = ""
      · subst h2
        rw [handle_id_empty s e t hid]
        exact h
      · rw [handle_id_valid s e t sid hid h2]
        cases countObjects (e.objects.getD (ObjectsVal.items [])) with
        | none => exact h
        | some c =>
            intro k
            rw [applyCount_some]
            by_cases hk : k = sid
            · subst hk
              rw [getD_setKey_self, getD_setKey_self]
              exact Nat.le_max_right _ _
            · rw [getD_setKey_ne _ _ _ _ _ hk, getD_setKey_ne _ _ _ _ _ hk]
              exact h k

theorem handle_total_le (s : PeopleCounter) (e : Event) (t : Nat)
    (h : s.total_people ≤ s.max_total_people) :
    (handle_mqtt_message s e t).total_people ≤
      (handle_mqtt_message s e t).max_total_people := by
  match hid : e.id with
  | none =>
      rw [handle_id_none s e t hid]
      exact h
  | some sid =>
      by_cases h2 : sid = ""
      · subst h2
        rw [handle_id_empty s e t hid]
        exact h
      · rw [handle_id_valid s e t sid hid h2]
        cases countObjects (e.objects.getD (ObjectsVal.items [])) with
        | none => exact h
        | some c => exact Nat.le_max_right _ _

theorem handle_peak_mono (s : PeopleCounter) (e : Event) (t : Nat)
    (k : String) : getD s.max_people_counts k 0 ≤
      getD (handle_mqtt_message s e t).max_people_counts k 0 := by
  match hid : e.id with
  | none =>
      rw [handle_id_none s e t hid]
  | some sid =>
      by_cases h2 : sid = ""
      · subst h2
        rw [handle_id_empty s e t hid]
      · rw [handle_id_valid s e t sid hid h2]
        cases countObjects (e.objects.getD (ObjectsVal.items [])) with
        | none => exact Nat.le_refl _
        | some c =>
            rw [applyCount_some]
            by_cases hk : k = sid
            · subst hk
              rw [getD_setKey_self]
              exact Nat.le_max_left _ _
            · rw [getD_setKey_ne _ _ _ _ _ hk]

theorem handle_maxtotal_mono (s : PeopleCounter) (e : Event) (t : Nat) :
    s.max_total_people ≤ (handle_mqtt_message s e t).max_total_people := by
  match hid : e.id with
  | none =>
      rw [handle_id_none s e t hid]
  | some sid =>
      by_cases h2 : sid = ""
      · subst h2
        rw [handle_id_empty s e t hid]
      · rw [handle_id_valid s e t sid hid h2]
        cases countObjects (e.objects.getD (ObjectsVal.items [])) with
        | none => exact Nat.le_refl _
        | some c => exact Nat.le_max_left _ _

/-! The same invariants carried over whole event sequences. -/

theorem processEvents_total_inv (evs : List (Event × Nat)) :
    ∀ s : PeopleCounter, s.total_people = sumValues s.people_counts →
      (processEvents s evs).total_people =
        sumValues (processEvents s evs).people_counts := by
  induction evs with
  | nil => exact fun s h => h
  | cons p rest ih =>
      intro s h
      obtain ⟨e, t⟩ := p
      exact ih _ (handle_total_inv s e t h)

theorem processEvents_peak_ge (evs : List (Event × Nat)) :
    ∀ s : PeopleCounter,
      (∀ k, getD s.people_counts k 0 ≤ getD s.max_people_counts k 0) →
      ∀ k, getD (processEvents s evs).people_counts k 0 ≤
        getD (processEvents s evs).max_people_counts k 0 := by
  induction evs with
  | nil => exact fun s h => h
  | cons p rest ih =>
      intro s h
      obtain ⟨e, t⟩ := p
      exact ih _ (handle_peak_ge s e t h)

theorem processEvents_total_le (evs : List (Event × Nat)) :
    ∀ s : PeopleCounter, s.total_people ≤ s.max_total_people →
      (processEvents s evs).total_people ≤
        (processEvents s evs).max_total_people := by
  induction evs with
  | nil => exact fun s h => h
  | cons p rest ih =>
      intro s h
      obtain ⟨e, t⟩ := p
      exact ih _ (handle_total_le s e t h)

theorem processEvents_peak_mono (evs : List (Event × Nat)) :
    ∀ (s : PeopleCounter) (k : String),
      getD s.max_people_counts k 0 ≤
        getD (processEvents s evs).max_people_counts k 0 := by
  induction evs with
  | nil => exact fun s k => Nat.le_refl _
  | cons p rest ih =>
      intro s k
      obtain ⟨e, t⟩ := p
      exact Nat.le_trans (handle_peak_mono s e t k) (ih _ k)

theorem processEvents_maxtotal_mono (evs : List (Event × Nat)) :
    ∀ s : PeopleCounter,
      s.max_total_people ≤ (processEvents s evs).max_total_people := by
  induction evs with
  | nil => exact fun s => Nat.le_refl _
  | cons p rest ih =>
      intro s
      obtain ⟨e, t⟩ := p
      exact Nat.le_trans (handle_maxtotal_mono s e t) (ih _)

/-! Idempotence of the peak updates under re-delivery of the same event. -/

theorem applyCount_idem_peaks (s : PeopleCounter) (sid sn : String)
    (oc : Option Nat) (t t' : Nat) :
    (applyCount (applyCount s sid sn oc t) sid sn oc t').max_people_counts =
      (applyCount s sid sn oc t).max_people_counts ∧
    (applyCount (applyCount s sid sn oc t) sid sn oc t').max_total_people =
      (applyCount s sid sn oc t).max_total_people := by
  cases oc with
  | none => exact ⟨rfl, rfl⟩
  | some c =>
      constructor
      · simp only [applyCount_some]
        rw [getD_setKey_self]
        have hmax : ((getD s.max_people_counts sid 0).max c).max c =
            (getD s.max_people_counts sid 0).max c :=
          Nat.max_eq_left (Nat.le_max_right _ _)
        rw [hmax, setKey_setKey]
      · simp only [applyCount_some]
        rw [setKey_setKey]
        have hmax : (s.max_total_people.max
              (sumValues (setKey s.people_counts sid c))).max
            (sumValues (setKey s.people_counts sid c)) =
            s.max_total_people.max (sumValues (setKey s.people_counts sid c)) :=
          Nat.max_eq_left (Nat.le_max_right _ _)
        rw [hmax]

theorem handle_idem_peaks (s : PeopleCounter) (e : Event) (t t' : Nat) :
    (handle_mqtt_message (handle_mqtt_message s e t) e t').max_people_counts =
      (handle_mqtt_message s e t).max_people_counts ∧
    (handle_mqtt_message (handle_mqtt_message s e t) e t').max_total_people =
      (handle_mqtt_message s e t).max_total_people := by
  match hid : e.id with
  | none =>
      rw [handle_id_none s e t hid, handle_id_none s e t' hid]
      exact ⟨rfl, rfl⟩
  | some sid =>
      by_cases h2 : sid = ""
      · subst h2
        rw [handle_id_empty s e t hid, handle_id_empty s e t' hid]
        exact ⟨rfl, rfl⟩
      · rw [handle_id_valid s e t sid hid h2]
        rw [handle_id_valid _ e t' sid hid h2]
        rw [resolveName_congr _ s e sid (applyCount_scenes ..)]
        exact applyCount_idem_peaks s sid (resolveName s e sid) _ t t'

/-! Counting lemma: on a list of well-formed mapping entries the loop
returns the number of person-classified entries. -/

theorem countLoop_mappings (l : List (Option String × Option String)) :
    ∀ acc : Nat,
      countLoop (l.map fun p => TrackedObj.mapping p.1 p.2) acc =
        some (acc + l.countP fun p => isPersonB p.1 p.2) := by
  induction l with
  | nil =>
      intro acc
      simp [countLoop]
  | cons p rest ih =>
      intro acc
      simp only [List.map_cons, countLoop]
      rw [ih]
      by_cases hp : isPersonB p.1 p.2 = true
      · simp only [hp, List.countP_cons, if_pos rfl]
        simp
        omega
      · simp only [List.countP_cons]
        rw [if_neg hp, if_neg hp]
        simp

/-! Characterization of the detailed-report count of the polling loop. -/

theorem runLoop_reports_eq (acts : List RunAction) :
    ∀ s : PeopleCounter,
      (runLoop s acts).2 =
        (pollCounts s acts).countP
          (fun n => decide (0 < n) && decide (n % 150 = 0)) := by
  induction acts with
  | nil => intro s; rfl
  | cons a rest ih =>
      intro s
      cases a with
      | msg e t =>
          simp only [runLoop, pollCounts]
          exact ih _
      | poll =>
          simp only [runLoop, pollCounts, List.countP_cons]
          rw [ih s]
          unfold pollFires
          cases hb : (decide (0 < s.message_count) &&
              decide (s.message_count % 150 = 0))
          · simp [hb]
          · simp [hb]
            omega

/-- Claim C1: for every sequence of events processed by
handle_mqtt_message, after each event the aggregate total total_people
equals the sum of the per-scene current counts people_counts over all
scenes seen so far (every prefix of a run is itself such a sequence),
and the sum is recomputed on every update: any call either leaves
people_counts and total_people untouched (rejected or failed message)
or makes total_people the sum of the updated people_counts, whatever
state it started from. -/
theorem claim_C1_total_is_sum :
    (∀ evs : List (Event × Nat),
        (processEvents initState evs).total_people =
          sumValues (processEvents initState evs).people_counts) ∧
    (∀ (s : PeopleCounter) (e : Event) (t : Nat),
        ((handle_mqtt_message s e t).people_counts = s.people_counts ∧
         (handle_mqtt_message s e t).total_people = s.total_people) ∨
        (handle_mqtt_message s e t).total_people =
          sumValues (handle_mqtt_message s e t).people_counts) := by
  constructor
  · intro evs
    exact processEvents_total_inv evs initState rfl
  · intro s e t
    match hid : e.id with
    | none =>
        rw [handle_id_none s e t hid]
        exact Or.inl ⟨rfl, rfl⟩
    | some sid =>
        by_cases h2 : sid = ""
        · subst h2
          rw [handle_id_empty s e t hid]
          exact Or.inl ⟨rfl, rfl⟩
        · rw [handle_id_valid s e t sid hid h2]
          cases countObjects (e.objects.getD (ObjectsVal.items [])) with
          | none => exact Or.inl ⟨rfl, rfl⟩
          | some c => exact Or.inr rfl

/-- Claim C2: after every update each scene's peak max_people_counts is
at least that scene's current count, the total peak max_total_people is
at least total_people, both are monotonically non-decreasing over the
whole run (from any state, across any further event sequence), and on a
successful update the peaks are set via max of the old value and the
new count (respectively the new total). -/
theorem claim_C2_peak_invariants :
    (∀ (evs : List (Event × Nat)) (k : String),
        getD (processEvents initState evs).people_counts k 0 ≤
          getD (processEvents initState evs).max_people_counts k 0) ∧
    (∀ evs : List (Event × Nat),
        (processEvents initState evs).total_people ≤
          (processEvents initState evs).max_total_people) ∧
    (∀ (s : PeopleCounter) (acts : List (Event × Nat)) (k : String),
        getD s.max_people_counts k 0 ≤
          getD (processEvents s acts).max_people_counts k 0) ∧
    (∀ (s : PeopleCounter) (acts : List (Event × Nat)),
        s.max_total_people ≤ (processEvents s acts).max_total_people) ∧
    (∀ (s : PeopleCounter) (e : Event) (t : Nat) (sid : String) (c : Nat),
        e.id = some sid → ¬ sid = "" →
        countObjects (e.objects.getD (ObjectsVal.items [])) = some c →
        getD (handle_mqtt_message s e t).max_people_counts sid 0 =
          Nat.max (getD s.max_people_counts sid 0) c ∧
        (handle_mqtt_message s e t).max_total_people =
          Nat.max s.max_total_people (handle_mqtt_message s e t).total_people) := by
  refine ⟨?_, ?_, ?_, ?_, ?_⟩
  · intro evs k
    exact processEvents_peak_ge evs initState (fun _ => Nat.le_refl 0) k
  · intro evs
    exact processEvents_total_le evs initState (Nat.le_refl 0)
  · intro s acts k
    exact processEvents_peak_mono acts s k
  · intro s acts
    exact processEvents_maxtotal_mono acts s
  · intro s e t sid c hid h2 hoc
    rw [handle_id_valid s e t sid hid h2, hoc, applyCount_some]
    exact ⟨getD_setKey_self .., rfl⟩

/-- A one-person event for scene A, used to evaluate the
hypothesis-bearing conjunct of claim C2 on a concrete input. -/
def onePersonEventA : Event :=
  { id := some "A"
    name := none
    objects := some (ObjectsVal.items [TrackedObj.mapping (some "person") none]) }

/-- Witness for claim C2: the hypothesis-bearing conjunct evaluated on a
one-person event for scene A against the fresh state. -/
theorem claim_C2_peak_invariants_witness :
    onePersonEventA.id = some "A" ∧
    (¬ "A" = "") ∧
    countObjects (onePersonEventA.objects.getD (ObjectsVal.items [])) =
      some 1 ∧
    (getD (handle_mqtt_message initState
        onePersonEventA 0).max_people_counts "A" 0 =
      Nat.max (getD initState.max_people_counts "A" 0) 1 ∧
    (handle_mqtt_message initState onePersonEventA 0).max_total_people =
      Nat.max initState.max_total_people
        (handle_mqtt_message initState onePersonEventA 0).total_people) :=
  ⟨rfl, by decide, rfl,
   claim_C2_peak_invariants.2.2.2.2 initState onePersonEventA 0 "A" 1 rfl
     (by decide) rfl⟩

/-- Claim C4: an event whose id is absent or empty (both falsy in
Python) is rejected before any state was touched, so the whole
PeopleCounter state is returned unchanged; the warning is only logged
and the handler returns normally, so nothing propagates to the MQTT
transport layer. -/
theorem claim_C4_malformed_no_side_effects :
    ∀ (s : PeopleCounter) (e : Event) (t : Nat),
      e.id = none ∨ e.id = some "" → handle_mqtt_message s e t = s := by
  intro s e t h
  cases h with
  | inl h => exact handle_id_none s e t h
  | inr h => exact handle_id_empty s e t h

/-- Witness for claim C4: an event with no id key leaves the fresh
state unchanged. -/
theorem claim_C4_malformed_no_side_effects_witness :
    (({ id := none, name := none, objects := none } : Event).id = none ∨
      ({ id := none, name := none, objects := none } : Event).id = some "") ∧
    handle_mqtt_message initState
      { id := none, name := none, objects := none } 3 = initState :=
  ⟨Or.inl rfl,
   claim_C4_malformed_no_side_effects initState
     { id := none, name := none, objects := none } 3 (Or.inl rfl)⟩

/-- Claim C8: peak tracking is idempotent and order-insensitive:
processing the same event twice, from any starting state, leaves every
per-scene peak and the total peak exactly as they were after the first
occurrence, and across any further event sequence from any state no
per-scene peak and no total peak ever decreases. -/
theorem claim_C8_peak_idempotent :
    (∀ (s : PeopleCounter) (e : Event) (t t' : Nat),
        (handle_mqtt_message (handle_mqtt_message s e t) e
            t').max_people_counts =
          (handle_mqtt_message s e t).max_people_counts ∧
        (handle_mqtt_message (handle_mqtt_message s e t) e
            t').max_total_people =
          (handle_mqtt_message s e t).max_total_people) ∧
    (∀ (s : PeopleCounter) (acts : List (Event × Nat)) (k : String),
        getD s.max_people_counts k 0 ≤
          getD (processEvents s acts).max_people_counts k 0) ∧
    (∀ (s : PeopleCounter) (acts : List (Event × Nat)),
        s.max_total_people ≤ (processEvents s acts).max_total_people) :=
  ⟨handle_idem_peaks,
   fun s acts k => processEvents_peak_mono acts s k,
   fun s acts => processEvents_maxtotal_mono acts s⟩

/-- Claim C3: an object entry counts as a person iff its type field is
person or its category field is person (either matching suffices); the
three sample person entries each count as one, a car entry as zero; and
on a well-formed objects list the scene's stored current count is the
number of person-classified entries. -/
theorem claim_C3_person_classification :
    (∀ ty category : Option String,
        isPersonB ty category = true ↔
          (ty = some "person" ∨ category = some "person")) ∧
    (countLoop [TrackedObj.mapping (some "person") none] 0 = some 1 ∧
     countLoop [TrackedObj.mapping none (some "person")] 0 = some 1 ∧
     countLoop [TrackedObj.mapping (some "person") (some "other")] 0 = some 1 ∧
     countLoop [TrackedObj.mapping (some "car") none] 0 = some 0) ∧
    (∀ l : List (Option String × Option String),
        countLoop (l.map fun p => TrackedObj.mapping p.1 p.2) 0 =
          some (l.countP fun p => isPersonB p.1 p.2)) ∧
    (∀ (s : PeopleCounter) (e : Event) (t : Nat) (sid : String)
        (objs : List TrackedObj) (c : Nat),
        e.id = some sid → ¬ sid = "" →
        e.objects = some (ObjectsVal.items objs) →
        countLoop objs 0 = some c →
        getD (handle_mqtt_message s e t).people_counts sid 0 = c) := by
  refine ⟨?_, by decide, ?_, ?_⟩
  · intro ty category
    simp [isPersonB]
  · intro l
    have h := countLoop_mappings l 0
    simpa using h
  · intro s e t sid objs c hid h2 hobj hc
    rw [handle_id_valid s e t sid hid h2, hobj]
    rw [show (some (ObjectsVal.items objs)).getD (ObjectsVal.items []) =
        ObjectsVal.items objs from rfl]
    rw [show countObjects (ObjectsVal.items objs) = countLoop objs 0 from rfl]
    rw [hc, applyCount_some]
    exact getD_setKey_self ..

/-- An event for the scene with id L carrying one person entry, used to
evaluate claim C3 on a concrete input. -/
def personEventL : Event :=
  { id := some "L"
    name := none
    objects := some (ObjectsVal.items [TrackedObj.mapping none (some "person")]) }

/-- Witness for claim C3: the hypothesis-bearing conjunct evaluated on a
one-person event for scene L against the fresh state. -/
theorem claim_C3_person_classification_witness :
    personEventL.id = some "L" ∧
    (¬ "L" = "") ∧
    personEventL.objects =
      some (ObjectsVal.items [TrackedObj.mapping none (some "person")]) ∧
    countLoop [TrackedObj.mapping none (some "person")] 0 = some 1 ∧
    getD (handle_mqtt_message initState personEventL 4).people_counts
      "L" 0 = 1 :=
  ⟨rfl, by decide, rfl, by decide,
   claim_C3_person_classification.2.2.2 initState personEventL 4 "L"
     [TrackedObj.mapping none (some "person")] 1 rfl (by decide) rfl
     (by decide)⟩

/-- The starting state of the end-to-end scenario: a fresh counter whose
registry holds scenes A (Lobby) and B (Lab). -/
def demoStart : PeopleCounter :=
  { initState with scenes := [("A", "Lobby"), ("B", "Lab")] }

/-- Scenario event 1: scene A with two person entries and one car. -/
def demoEvent1 : Event :=
  { id := some "A"
    name := none
    objects := some (ObjectsVal.items
      [TrackedObj.mapping (some "person") none,
       TrackedObj.mapping (some "person") none,
       TrackedObj.mapping (some "car") none]) }

/-- Scenario event 2: scene B with one person entry (category field). -/
def demoEvent2 : Event :=
  { id := some "B"
    name := none
    objects := some (ObjectsVal.items [TrackedObj.mapping none (some "person")]) }

/-- Scenario event 3: scene A with an empty objects list. -/
def demoEvent3 : Event :=
  { id := some "A"
    name := none
    objects := some (ObjectsVal.items []) }

/-- Scenario state after event 1. -/
def demoState1 : PeopleCounter := handle_mqtt_message demoStart demoEvent1 1

/-- Scenario state after event 2. -/
def demoState2 : PeopleCounter := handle_mqtt_message demoState1 demoEvent2 2

/-- Scenario state after event 3. -/
def demoState3 : PeopleCounter := handle_mqtt_message demoState2 demoEvent3 3

/-- Claim C5: the end-to-end scenario.  After event 1 scene A counts 2
with total 2, peak 2 and total peak 2; after event 2 scene B counts 1
with total 3, peak 1 and total peak 3; after event 3 scene A counts 0
with total 1 while the total peak stays 3 and scene A's peak stays 2. -/
theorem claim_C5_scenario :
    getD demoState1.people_counts "A" 0 = 2 ∧
    demoState1.total_people = 2 ∧
    getD demoState1.max_people_counts "A" 0 = 2 ∧
    demoState1.max_total_people = 2 ∧
    getD demoState2.people_counts "B" 0 = 1 ∧
    demoState2.total_people = 3 ∧
    getD demoState2.max_people_counts "B" 0 = 1 ∧
    demoState2.max_total_people = 3 ∧
    getD demoState3.people_counts "A" 0 = 0 ∧
    demoState3.total_people = 1 ∧
    demoState3.max_total_people = 3 ∧
    getD demoState3.max_people_counts "A" 0 = 2 := by
  decide

/-- Whatever the counting outcome, applyCount writes the resolved name
into the scene-name cache (the write at hello_world.py line 304 happens
before the counting loop). -/
theorem applyCount_scene_names (s : PeopleCounter) (sid sn : String)
    (oc : Option Nat) (now : Nat) :
    (applyCount s sid sn oc now).scene_names =
      setKey s.scene_names sid sn := by
  cases oc <;> rfl

/-- An event for the unregistered scene room42xyz supplying the display
name Atrium in its name field. -/
def priorNameEvent : Event :=
  { id := some "room42xyz"
    name := some "Atrium"
    objects := none }

/-- A later event for the same scene room42xyz with no name field. -/
def noNameEvent : Event :=
  { id := some "room42xyz"
    name := none
    objects := none }

/-- Counterexample to claim C6: the scene room42xyz is unknown to the
registry; a first event supplies the name Atrium via its name field and
it is cached, yet a second event lacking a name field overwrites the
cached name with the synthesized placeholder built from the first 8
characters of the id, because the fallback at hello_world.py line 303
consults self.scenes (the registry), never self.scene_names (the
cache).  So a name supplied by a prior event's name field is not
protected, contrary to the claim. -/
theorem claim_C6_counterexample :
    getOpt (handle_mqtt_message initState priorNameEvent 0).scene_names
      "room42xyz" = some "Atrium" ∧
    getOpt (handle_mqtt_message
        (handle_mqtt_message initState priorNameEvent 0)
        noNameEvent 1).scene_names "room42xyz" = some "Scene-room42xy" ∧
    ¬ getOpt (handle_mqtt_message
        (handle_mqtt_message initState priorNameEvent 0)
        noNameEvent 1).scene_names "room42xyz" = some "Atrium" := by
  decide

/-- Claim C6 as amended: only a registry-supplied name is protected.
For a scene the registry knows, an event lacking a name field caches
the registry name, never the placeholder; for a scene the registry does
not know, an event lacking a name field caches the placeholder built
from the first 8 characters of the id, regardless of any name a prior
event had put in the cache. -/
theorem claim_C6_amended_name_cache :
    (∀ (s : PeopleCounter) (e : Event) (t : Nat) (sid nm : String),
        getOpt s.scenes sid = some nm → e.id = some sid → ¬ sid = "" →
        e.name = none →
        getOpt (handle_mqtt_message s e t).scene_names sid = some nm) ∧
    (∀ (s : PeopleCounter) (e : Event) (t : Nat) (sid : String),
        getOpt s.scenes sid = none → e.id = some sid → ¬ sid = "" →
        e.name = none →
        getOpt (handle_mqtt_message s e t).scene_names sid =
          some ("Scene-" ++ sid.take 8)) := by
  constructor
  · intro s e t sid nm hreg hid h2 hname
    rw [handle_id_valid s e t sid hid h2]
    have hrn : resolveName s e sid = nm := by
      simp [resolveName, hname, hreg]
    rw [applyCount_scene_names, hrn, getOpt_setKey_self]
  · intro s e t sid hreg hid h2 hname
    rw [handle_id_valid s e t sid hid h2]
    have hrn : resolveName s e sid = "Scene-" ++ sid.take 8 := by
      simp [resolveName, hname, hreg]
    rw [applyCount_scene_names, hrn, getOpt_setKey_self]

/-- A registry that knows the scene hall under the name Hall. -/
def hallRegistry : PeopleCounter :=
  { initState with scenes := [("hall", "Hall")] }

/-- An event for the scene hall with no name field. -/
def noNameHallEvent : Event :=
  { id := some "hall"
    name := none
    objects := none }

/-- Witness for the amended claim C6: both conjuncts evaluated on
concrete inputs; the registry name Hall survives a nameless event, and
the unregistered scene room42xyz receives the placeholder. -/
theorem claim_C6_amended_name_cache_witness :
    (getOpt hallRegistry.scenes "hall" = some "Hall" ∧
     noNameHallEvent.id = some "hall" ∧
     (¬ "hall" = "") ∧
     noNameHallEvent.name = none ∧
     getOpt (handle_mqtt_message hallRegistry noNameHallEvent 2).scene_names
       "hall" = some "Hall") ∧
    (getOpt initState.scenes "room42xyz" = none ∧
     noNameEvent.id = some "room42xyz" ∧
     (¬ "room42xyz" = "") ∧
     noNameEvent.name = none ∧
     getOpt (handle_mqtt_message initState noNameEvent 2).scene_names
       "room42xyz" = some ("Scene-" ++ "room42xyz".take 8)) :=
  ⟨⟨rfl, rfl, by decide, rfl,
    claim_C6_amended_name_cache.1 hallRegistry noNameHallEvent 2 "hall"
      "Hall" rfl rfl (by decide) rfl⟩,
   ⟨rfl, rfl, by decide, rfl,
    claim_C6_amended_name_cache.2 initState noNameEvent 2 "room42xyz"
      rfl rfl (by decide) rfl⟩⟩

/-- An event with one person in the scene whose id is the lower-case a. -/
def lowerEventA : Event :=
  { id := some "a"
    name := none
    objects := some (ObjectsVal.items [TrackedObj.mapping (some "person") none]) }

/-- An event with one person in the scene whose id is the upper-case A. -/
def upperEventA : Event :=
  { id := some "A"
    name := none
    objects := some (ObjectsVal.items [TrackedObj.mapping (some "person") none]) }

/-- The state after processing one event for id a and one for id A. -/
def caseState : PeopleCounter :=
  handle_mqtt_message (handle_mqtt_message initState lowerEventA 0)
    upperEventA 1

/-- Counterexample to claim C7: scene ids are Python dict keys and are
compared case-sensitively, so events for a and for A create two
distinct per-scene entries, each with its own count and its own peak,
and both contribute to the total, contrary to the claim that ids
differing only in case share one entry and contribute once. -/
theorem claim_C7_counterexample :
    caseState.people_counts = [("a", 1), ("A", 1)] ∧
    caseState.max_people_counts = [("a", 1), ("A", 1)] ∧
    caseState.total_people = 2 ∧
    ¬ caseState.people_counts.length = 1 ∧
    ¬ caseState.total_people = 1 := by
  decide

/-- Claim C7 as amended: scene ids are compared case-sensitively.  An
event for scene sid never touches the current count or the peak of any
other key, including a case variant of sid, so ids differing in case
hold fully separate per-scene state. -/
theorem claim_C7_amended_case_sensitive :
    ∀ (s : PeopleCounter) (e : Event) (t : Nat) (sid k : String),
      e.id = some sid → ¬ sid = "" → ¬ k = sid →
      getD (handle_mqtt_message s e t).people_counts k 0 =
        getD s.people_counts k 0 ∧
      getD (handle_mqtt_message s e t).max_people_counts k 0 =
        getD s.max_people_counts k 0 := by
  intro s e t sid k hid h2 hk
  rw [handle_id_valid s e t sid hid h2]
  cases countObjects (e.objects.getD (ObjectsVal.items [])) with
  | none => exact ⟨rfl, rfl⟩
  | some c =>
      rw [applyCount_some]
      exact ⟨getD_setKey_ne _ _ _ _ _ hk, getD_setKey_ne _ _ _ _ _ hk⟩

/-- Witness for the amended claim C7: an event for the upper-case id A
leaves the state of the lower-case id a untouched. -/
theorem claim_C7_amended_case_sensitive_witness :
    upperEventA.id = some "A" ∧
    (¬ "A" = "") ∧
    (¬ "a" = "A") ∧
    (getD (handle_mqtt_message initState upperEventA 9).people_counts
        "a" 0 = getD initState.people_counts "a" 0 ∧
     getD (handle_mqtt_message initState upperEventA 9).max_people_counts
        "a" 0 = getD initState.max_people_counts "a" 0) :=
  ⟨rfl, by decide, by decide,
   claim_C7_amended_case_sensitive initState upperEventA 9 "A" "a" rfl
     (by decide) (by decide)⟩

/-- A run in which the MQTT thread delivers 151 messages before the
main loop's next 5-second wake-up, which then polls once. -/
def overshootSchedule : List RunAction :=
  List.replicate 151
    (RunAction.msg { id := some "A", name := none, objects := none } 0) ++
    [RunAction.poll]

/-- A run in which the counter rests at 150 across two consecutive
wake-ups of the main loop. -/
def steadySchedule : List RunAction :=
  List.replicate 150
    (RunAction.msg { id := some "A", name := none, objects := none } 0) ++
    [RunAction.poll, RunAction.poll]

set_option maxRecDepth 10000 in
/-- Counterexample to claim C9: the detailed report is driven by the
main loop, which only inspects message_count every 5 seconds.  In the
first run the counter attains and passes the positive multiple 150
between wake-ups, and zero detailed reports are emitted, not exactly
one; in the second run the counter rests at 150 across two wake-ups and
two detailed reports are emitted for the single multiple attained. -/
theorem claim_C9_counterexample :
    (runLoop initState overshootSchedule).1.message_count = 151 ∧
    (runLoop initState overshootSchedule).2 = 0 ∧
    ¬ (runLoop initState overshootSchedule).2 = 1 ∧
    (runLoop initState steadySchedule).1.message_count = 150 ∧
    (runLoop initState steadySchedule).2 = 2 ∧
    ¬ (runLoop initState steadySchedule).2 = 1 := by
  decide

/-- Claim C9 as amended: a detailed report is emitted exactly at those
iterations of the main loop at which message_count is currently a
positive multiple of 150; a multiple attained and passed between two
wake-ups produces no report, and a counter resting at a multiple across
several wake-ups produces one report per wake-up. -/
theorem claim_C9_amended_reports :
    ∀ (acts : List RunAction) (s : PeopleCounter),
      (runLoop s acts).2 =
        (pollCounts s acts).countP
          (fun n => decide (0 < n) && decide (n % 150 = 0)) :=
  fun acts s => runLoop_reports_eq acts s

/-- Claim C10: within one handle_mqtt_message call with a valid scene
id, the scene-name cache is written before any counting occurs, so when
counting raises (objects not iterable, or an entry not a mapping) and
the exception is caught and logged, the call is not atomic: the result
state carries the newly resolved name in scene_names while
people_counts, total_people, max_people_counts, max_total_people,
message_count and last_update are all those of the starting state. -/
theorem claim_C10_partial_update :
    ∀ (s : PeopleCounter) (e : Event) (t : Nat) (sid : String),
      e.id = some sid → ¬ sid = "" →
      countObjects (e.objects.getD (ObjectsVal.items [])) = none →
      handle_mqtt_message s e t =
        { s with scene_names :=
            setKey s.scene_names sid (resolveName s e sid) } ∧
      getOpt (handle_mqtt_message s e t).scene_names sid =
        some (resolveName s e sid) := by
  intro s e t sid hid h2 hoc
  have hmain : handle_mqtt_message s e t =
      { s with scene_names :=
          setKey s.scene_names sid (resolveName s e sid) } := by
    rw [handle_id_valid s e t sid hid h2, hoc, applyCount_none]
  refine ⟨hmain, ?_⟩
  rw [hmain]
  exact getOpt_setKey_self ..

/-- An event whose objects value is not iterable, for the scene with id
roomXYZ. -/
def badObjectsEvent : Event :=
  { id := some "roomXYZ"
    name := none
    objects := some ObjectsVal.notIterable }

/-- Witness for claim C10: a non-iterable objects value against the
fresh state caches the placeholder name for roomXYZ and changes nothing
else. -/
theorem claim_C10_partial_update_witness :
    badObjectsEvent.id = some "roomXYZ" ∧
    (¬ "roomXYZ" = "") ∧
    countObjects (badObjectsEvent.objects.getD (ObjectsVal.items [])) =
      none ∧
    (handle_mqtt_message initState badObjectsEvent 6 =
      { initState with
          scene_names := setKey initState.scene_names "roomXYZ"
            (resolveName initState badObjectsEvent "roomXYZ") } ∧
     getOpt (handle_mqtt_message initState badObjectsEvent 6).scene_names
        "roomXYZ" = some (resolveName initState badObjectsEvent "roomXYZ")) :=
  ⟨rfl, by decide, rfl,
   claim_C10_partial_update initState badObjectsEvent 6 "roomXYZ" rfl
     (by decide) rfl⟩
